import Mathlib

/-!
Verification development for the Poll-Ranking-System core
(`src/server/src/polls/polls.repository.ts`, the `PollsService` in
`src/unnamed/part_000`, the final `PollsGateway` in
`src/server/src/polls/polls.repository.ts` lines 402-567, and
`src/server/src/exceptions/ws-catch-all-filter.ts`).

The Redis JSON document store is embedded as an association list from poll
IDs to poll documents; each poll document stores its `participants` and
`nominations` JSON objects as association lists from string keys.  JSON
object semantics (unique keys, `JSON.SET` replacing the value at an
existing key and creating it otherwise, `JSON.DEL` removing the key and
being a no-op on an absent key) are embedded by `setEntry`, `delEntry`
and `lookupKey` below.
-/

namespace PollRanking

/-- Key-value lookup in an association list: first entry with the key. -/
def lookupKey {β : Type} : List (String × β) → String → Option β
  | [], _ => none
  | (k', v) :: rest, k => if k' = k then some v else lookupKey rest k

/-- `JSON.SET` on an object member path: replace the value at the key if
present, otherwise add the entry. -/
def setEntry {β : Type} : List (String × β) → String → β → List (String × β)
  | [], k, v => [(k, v)]
  | (k', v') :: rest, k, v =>
      if k' = k then (k, v) :: rest else (k', v') :: setEntry rest k v

/-- `JSON.DEL` on an object member path: remove the entry at the key;
removing an absent key changes nothing. -/
def delEntry {β : Type} : List (String × β) → String → List (String × β)
  | [], _ => []
  | (k', v) :: rest, k =>
      if k' = k then delEntry rest k else (k', v) :: delEntry rest k

/-- Number of entries carrying a given key (a well-formed JSON object has
at most one). -/
def countKey {β : Type} : List (String × β) → String → Nat
  | [], _ => 0
  | (k', _) :: rest, k =>
      if k' = k then countKey rest k + 1 else countKey rest k

/-- A nomination document, shaped as the `nomination` object built by
`PollsService.addNomination` (`src/unnamed/part_000` lines 160-163):
the nominating user and the nomination text. -/
structure Nomination where
  userID : String
  text : String
deriving DecidableEq, Repr

/-- A poll document, shaped exactly as the `initialPoll` object of
`PollsRepository.createPoll` (`polls.repository.ts` lines 51-59). -/
structure Poll where
  id : String
  topic : String
  votesPerVoter : Nat
  participants : List (String × String)
  nominations : List (String × Nomination)
  adminID : String
  hasStarted : Bool
deriving DecidableEq, Repr

/-- The Redis store: one JSON document per poll ID. -/
def Store : Type := List (String × Poll)

instance : DecidableEq Store := by
  unfold Store
  infer_instance

/-- Errors surfaced by the service and repository layers.
`internalError` embeds the `InternalServerErrorException` thrown by the
repository catch blocks; `nullDeref` embeds the JavaScript `TypeError`
raised when a field of a `null` poll is accessed.  `sessionNotFound` is
the distinguished error named by the specification taxonomy; it is
listed so that statements can compare the errors the code actually
produces against it. -/
inductive SvcError where
  | internalError
  | nullDeref
  | sessionNotFound
deriving DecidableEq, Repr

/-! ## Repository layer (`PollsRepository`, `polls.repository.ts`) -/

/-- Input of `PollsRepository.createPoll` (`CreatePollData`). -/
structure CreatePollData where
  pollID : String
  topic : String
  votesPerVoter : Nat
  userID : String

/-- `PollsRepository.createPoll` (lines 44-85): builds `initialPoll`
locally, writes it at the root path with a TTL, and returns the locally
built object (no read-back). -/
def repoCreatePoll (store : Store) (d : CreatePollData) : Poll × Store :=
  let initialPoll : Poll :=
    { id := d.pollID
      topic := d.topic
      votesPerVoter := d.votesPerVoter
      participants := []
      nominations := []
      adminID := d.userID
      hasStarted := false }
  (initialPoll, setEntry store d.pollID initialPoll)

/-- `PollsRepository.getPoll` (lines 94-114): `JSON.GET` at the root.
On an absent or expired key Redis returns null and `JSON.parse` yields
null, so the call returns a null poll rather than failing. -/
def repoGetPoll (store : Store) (pollID : String) : Option Poll :=
  lookupKey store pollID

/-- `PollsRepository.addParticipant` (lines 122-153): `JSON.SET` on the
path `.participants.<userID>`, then a full re-read via `getPoll`.
`JSON.SET` on a member path of an absent document fails, which the catch
block rethrows as `InternalServerErrorException`. -/
def repoAddParticipant (store : Store) (pollID userID name : String) :
    Except SvcError (Option Poll × Store) :=
  match lookupKey store pollID with
  | none => .error .internalError
  | some poll =>
      let poll' := { poll with participants := setEntry poll.participants userID name }
      let store' := setEntry store pollID poll'
      .ok (repoGetPoll store' pollID, store')

/-- `PollsRepository.removeParticipant` (lines 163-186): `JSON.DEL` on
the path `.participants.<userID>` (a no-op when the key or the path is
absent), then a full re-read via `getPoll`. -/
def repoRemoveParticipant (store : Store) (pollID userID : String) :
    Option Poll × Store :=
  match lookupKey store pollID with
  | none => (none, store)
  | some poll =>
      let poll' := { poll with participants := delEntry poll.participants userID }
      let store' := setEntry store pollID poll'
      (repoGetPoll store' pollID, store')

/-- `PollsRepository.addNomination` (lines 188-212): `JSON.SET` on the
path `.nominations.<nominationID>`, then a full re-read. -/
def repoAddNomination (store : Store) (pollID nominationID : String)
    (nomination : Nomination) : Except SvcError (Option Poll × Store) :=
  match lookupKey store pollID with
  | none => .error .internalError
  | some poll =>
      let poll' := { poll with nominations := setEntry poll.nominations nominationID nomination }
      let store' := setEntry store pollID poll'
      .ok (repoGetPoll store' pollID, store')

/-- `PollsRepository.removeNomination` (lines 214-232): `JSON.DEL` on
the path `.nominations.<nominationID>`, then a full re-read. -/
def repoRemoveNomination (store : Store) (pollID nominationID : String) :
    Option Poll × Store :=
  match lookupKey store pollID with
  | none => (none, store)
  | some poll =>
      let poll' := { poll with nominations := delEntry poll.nominations nominationID }
      let store' := setEntry store pollID poll'
      (repoGetPoll store' pollID, store')

/-! ## Service layer (`PollsService`, `src/unnamed/part_000`) -/

/-- The JWT payload signed by `PollsService`: claims `pollID` and `name`,
subject `userID`. -/
structure Token where
  pollID : String
  name : String
  sub : String
deriving DecidableEq, Repr

/-- `PollsService.createPoll` (lines 39-65).  `createPollID()` and
`createUserID()` draw fresh random identifiers (`src/unnamed/part_004`);
the drawn values are passed in as the `pollID` and `userID` arguments.
Returns the created poll together with the signed access token. -/
def serviceCreatePoll (store : Store) (topic : String) (votesPerVoter : Nat)
    (name pollID userID : String) : (Poll × Token) × Store :=
  let r := repoCreatePoll store
    { pollID := pollID, topic := topic, votesPerVoter := votesPerVoter, userID := userID }
  ((r.1, { pollID := r.1.id, name := name, sub := userID }), r.2)

/-- `PollsService.joinPoll` (lines 72-96).  Reads the poll, then builds
the token from `joinedPoll.id`; when the poll is absent `getPoll` yields
null and the access `joinedPoll.id` raises a `TypeError`. -/
def serviceJoinPoll (store : Store) (pollID name userID : String) :
    Except SvcError (Poll × Token) :=
  match repoGetPoll store pollID with
  | none => .error .nullDeref
  | some joinedPoll =>
      .ok (joinedPoll, { pollID := joinedPoll.id, name := name, sub := userID })

/-- `PollsService.rejoinPoll` (lines 103-110): a passthrough to
`PollsRepository.addParticipant`. -/
def serviceRejoinPoll (store : Store) (pollID userID name : String) :
    Except SvcError (Option Poll × Store) :=
  repoAddParticipant store pollID userID name

/-- `PollsService.addParticipant` (lines 118-120): a passthrough to
`PollsRepository.addParticipant`. -/
def serviceAddParticipant (store : Store) (pollID userID name : String) :
    Except SvcError (Option Poll × Store) :=
  repoAddParticipant store pollID userID name

/-- `PollsService.removeParticipant` (lines 128-141): reads the poll,
returns undefined (embedded as `none`) without mutating when
`hasStarted` is true, and otherwise delegates to the repository.  When
the poll is absent the read yields null and `poll.hasStarted` raises a
`TypeError`. -/
def serviceRemoveParticipant (store : Store) (pollID userID : String) :
    Except SvcError (Option Poll × Store) :=
  match repoGetPoll store pollID with
  | none => .error .nullDeref
  | some poll =>
      if poll.hasStarted then .ok (none, store)
      else .ok (repoRemoveParticipant store pollID userID)

/-- `PollsService.getPoll` (lines 148-150): a passthrough to
`PollsRepository.getPoll`. -/
def serviceGetPoll (store : Store) (pollID : String) : Option Poll :=
  repoGetPoll store pollID

/-- `PollsService.addNomination` (lines 152-165).  `createNominationID()`
draws a fresh random identifier; the drawn value is passed in as the
`nominationID` argument.  The nomination document records the calling
user and the text. -/
def serviceAddNomination (store : Store) (pollID userID text nominationID : String) :
    Except SvcError (Option Poll × Store) :=
  repoAddNomination store pollID nominationID { userID := userID, text := text }

/-- `PollsService.removeNomination` (lines 167-171): a passthrough to
`PollsRepository.removeNomination`. -/
def serviceRemoveNomination (store : Store) (pollID nominationID : String) :
    Option Poll × Store :=
  repoRemoveNomination store pollID nominationID

/-! ## Real-time coordinator (`PollsGateway`,
`polls.repository.ts` lines 402-567) and exception filter
(`ws-catch-all-filter.ts`) -/

/-- A message emitted on the socket layer: either a room broadcast
(`this.io.to(room).emit(event, payload)`) with the poll payload, or a
unicast to the acting socket (`socket.emit(event, ...)`, as done by
`WsCatchAllFilter.catch`). -/
inductive OutMsg where
  | broadcast (room : String) (event : String) (payload : Option Poll)
  | unicast (event : String)
deriving DecidableEq, Repr

/-- The identity triple bound to a socket (`SocketWithAuth`,
`src/unnamed/part_003`). -/
structure AuthPayload where
  userID : String
  pollID : String
  name : String
deriving DecidableEq, Repr

/-- Modelled from the spec: the source file
`src/server/src/polls/gateway-admin.guard.ts` is not in the tree; only
its `@UseGuards(GatewayAdminGuard)` call sites are.  Spec section 4.4:
admin-only actions are Allowed iff the acting participant identity
equals `session.adminID`; a Denied outcome rejects the action before the
handler body runs.  The guard reads the session named by the socket's
poll ID to compare against its `adminID`. -/
def gatewayAdminGuard (store : Store) (client : AuthPayload) : Bool :=
  match lookupKey store client.pollID with
  | none => false
  | some poll => client.userID == poll.adminID

/-- `PollsGateway.handleDisconnect` (lines 490-513): invokes
`removeParticipant` and emits `poll_updated` to the room only when the
returned value is truthy (the comment at lines 508-509 documents the
suppression when the poll has started). -/
def gatewayHandleDisconnect (store : Store) (client : AuthPayload) :
    List OutMsg × Store :=
  match serviceRemoveParticipant store client.pollID client.userID with
  | .error _ => ([], store)
  | .ok (some updatedPoll, store') =>
      ([.broadcast client.pollID "poll_updated" (some updatedPoll)], store')
  | .ok (none, store') => ([], store')

/-- `PollsGateway.removeParticipant` (lines 515-531), guarded by
`GatewayAdminGuard`: invokes `removeParticipant` and emits
`poll_updated` to the room unconditionally — the handler has no
truthiness check on `updatedPoll`, unlike `handleDisconnect`.  A
rejection (guard denial or thrown error) reaches the client as a
unicast `exception` via `WsCatchAllFilter.catch`. -/
def gatewayRemoveParticipant (store : Store) (client : AuthPayload)
    (userID : String) : List OutMsg × Store :=
  if gatewayAdminGuard store client then
    match serviceRemoveParticipant store client.pollID userID with
    | .error _ => ([.unicast "exception"], store)
    | .ok (updatedPoll, store') =>
        ([.broadcast client.pollID "poll_updated" updatedPoll], store')
  else ([.unicast "exception"], store)

/-- `PollsGateway.nominate` (lines 533-548): invokes `addNomination`
with the socket's own user ID and emits `poll_updated` to the room. -/
def gatewayNominate (store : Store) (client : AuthPayload)
    (text nominationID : String) : List OutMsg × Store :=
  match serviceAddNomination store client.pollID client.userID text nominationID with
  | .error _ => ([.unicast "exception"], store)
  | .ok (updatedPoll, store') =>
      ([.broadcast client.pollID "poll_updated" updatedPoll], store')

/-- `PollsGateway.removeNomination` (lines 550-566), guarded by
`GatewayAdminGuard`: invokes `removeNomination` and emits the event
named `pol_updated` — the literal string at line 565 — to the room. -/
def gatewayRemoveNomination (store : Store) (client : AuthPayload)
    (nominationID : String) : List OutMsg × Store :=
  if gatewayAdminGuard store client then
    let r := serviceRemoveNomination store client.pollID nominationID
    ([.broadcast client.pollID "pol_updated" r.1], r.2)
  else ([.unicast "exception"], store)

/-- States of the document store reachable through the service
operations, starting from an empty store.  The identifier arguments of
`create`, `rejoin`, `addPart` and `addNom` range over all strings, as
the randomly drawn `nanoid` identifiers do. -/
inductive ReachableStore : Store → Prop where
  | empty : ReachableStore []
  | create (s : Store) (topic : String) (votes : Nat) (name pollID userID : String) :
      ReachableStore s →
      ReachableStore (serviceCreatePoll s topic votes name pollID userID).2
  | rejoin (s : Store) (pollID userID name : String) (p : Option Poll) (s' : Store) :
      ReachableStore s → serviceRejoinPoll s pollID userID name = .ok (p, s') →
      ReachableStore s'
  | addPart (s : Store) (pollID userID name : String) (p : Option Poll) (s' : Store) :
      ReachableStore s → serviceAddParticipant s pollID userID name = .ok (p, s') →
      ReachableStore s'
  | removePart (s : Store) (pollID userID : String) (p : Option Poll) (s' : Store) :
      ReachableStore s → serviceRemoveParticipant s pollID userID = .ok (p, s') →
      ReachableStore s'
  | addNom (s : Store) (pollID userID text nominationID : String)
      (p : Option Poll) (s' : Store) :
      ReachableStore s →
      serviceAddNomination s pollID userID text nominationID = .ok (p, s') →
      ReachableStore s'
  | removeNom (s : Store) (pollID nominationID : String) :
      ReachableStore s →
      ReachableStore (serviceRemoveNomination s pollID nominationID).2

/-- The nomination-owner invariant in the words of the specification
(section 3): in every reachable store, a successful `addNomination` is
performed by an identity that is a key of the session's participants map
at that moment, so every nomination's owner was a participant at
creation time.  Stated for comparison with the embedded code. -/
def nominationOwnersWereParticipants : Prop :=
  ∀ s : Store, ReachableStore s →
    ∀ pollID userID text nominationID r,
      serviceAddNomination s pollID userID text nominationID = Except.ok r →
      ∃ poll, lookupKey s pollID = some poll ∧
        lookupKey poll.participants userID ≠ none

/-! ## Demonstration data used by witnesses and counterexamples -/

/-- A freshly created poll: the document `createPoll` writes for
topic "lunch", two votes per voter, poll ID "p1" and creator "alice". -/
def pollFreshDemo : Poll :=
  { id := "p1", topic := "lunch", votesPerVoter := 2,
    participants := [], nominations := [],
    adminID := "alice", hasStarted := false }

/-- The store right after that creation. -/
def storeFreshDemo : Store := [("p1", pollFreshDemo)]

/-- A poll whose voting phase has started, with one recorded participant. -/
def pollStartedDemo : Poll :=
  { id := "p1", topic := "lunch", votesPerVoter := 2,
    participants := [("bob", "Bob")], nominations := [],
    adminID := "alice", hasStarted := true }

/-- A store holding only `pollStartedDemo`. -/
def storeStartedDemo : Store := [("p1", pollStartedDemo)]

/-- A poll that has not started, with two recorded participants and one
nomination. -/
def pollOpenDemo : Poll :=
  { id := "p1", topic := "lunch", votesPerVoter := 2,
    participants := [("bob", "Bob"), ("carol", "Carol")],
    nominations := [("n1", { userID := "alice", text := "Pizza" })],
    adminID := "alice", hasStarted := false }

/-- A store holding only `pollOpenDemo`. -/
def storeOpenDemo : Store := [("p1", pollOpenDemo)]

/-! ## Association-list lemmas -/

theorem lookupKey_setEntry_self {β : Type} (l : List (String × β)) (k : String) (v : β) :
    lookupKey (setEntry l k v) k = some v := by
  induction l with
  | nil => simp [setEntry, lookupKey]
  | cons hd tl ih =>
      obtain ⟨k', v'⟩ := hd
      by_cases h : k' = k
      · simp [setEntry, lookupKey, h]
      · simp [setEntry, lookupKey, h, ih]

theorem lookupKey_setEntry_ne {β : Type} (l : List (String × β)) (k k₂ : String)
    (v : β) (h : k₂ ≠ k) : lookupKey (setEntry l k v) k₂ = lookupKey l k₂ := by
  induction l with
  | nil => simp [setEntry, lookupKey, Ne.symm h]
  | cons hd tl ih =>
      obtain ⟨k', v'⟩ := hd
      by_cases hk : k' = k
      · subst hk
        simp [setEntry, lookupKey, Ne.symm h]
      · simp only [setEntry, if_neg hk, lookupKey]
        by_cases hk2 : k' = k₂
        · simp [hk2]
        · simp [hk2, ih]

theorem lookupKey_delEntry_self {β : Type} (l : List (String × β)) (k : String) :
    lookupKey (delEntry l k) k = none := by
  induction l with
  | nil => simp [delEntry, lookupKey]
  | cons hd tl ih =>
      obtain ⟨k', v'⟩ := hd
      by_cases h : k' = k
      · simp [delEntry, h, ih]
      · simp [delEntry, lookupKey, h, ih]

theorem lookupKey_delEntry_ne {β : Type} (l : List (String × β)) (k k₂ : String)
    (h : k₂ ≠ k) : lookupKey (delEntry l k) k₂ = lookupKey l k₂ := by
  induction l with
  | nil => simp [delEntry]
  | cons hd tl ih =>
      obtain ⟨k', v'⟩ := hd
      by_cases hk : k' = k
      · subst hk
        simp [delEntry, lookupKey, Ne.symm h, ih]
      · simp only [delEntry, if_neg hk, lookupKey]
        by_cases hk2 : k' = k₂
        · simp [hk2]
        · simp [hk2, ih]

theorem delEntry_setEntry_of_absent {β : Type} (l : List (String × β)) (k : String)
    (v : β) (h : lookupKey l k = none) : delEntry (setEntry l k v) k = l := by
  induction l with
  | nil => simp [setEntry, delEntry]
  | cons hd tl ih =>
      obtain ⟨k', v'⟩ := hd
      by_cases hk : k' = k
      · simp [lookupKey, hk] at h
      · simp only [lookupKey, if_neg hk] at h
        simp [setEntry, delEntry, hk, ih h]

theorem countKey_setEntry {β : Type} (l : List (String × β)) (k : String) (v : β) :
    countKey (setEntry l k v) k = max (countKey l k) 1 := by
  induction l with
  | nil => simp [setEntry, countKey]
  | cons hd tl ih =>
      obtain ⟨k', v'⟩ := hd
      by_cases hk : k' = k
      · simp [setEntry, countKey, hk]
      · simp [setEntry, countKey, hk, ih]

/-! ## Claims -/

/-- Claim C1: for every `createSession` input, the returned session has
`hasStarted = false`, an empty participants map, an empty nominations
map, and `adminID` equal to the fresh participant identity returned
alongside it (the subject of the signed access token). -/
theorem createPoll_initial_session (store : Store) (topic : String)
    (votesPerVoter : Nat) (name pollID userID : String) :
    (serviceCreatePoll store topic votesPerVoter name pollID userID).1.1.hasStarted = false ∧
    (serviceCreatePoll store topic votesPerVoter name pollID userID).1.1.participants = [] ∧
    (serviceCreatePoll store topic votesPerVoter name pollID userID).1.1.nominations = [] ∧
    (serviceCreatePoll store topic votesPerVoter name pollID userID).1.1.adminID =
      (serviceCreatePoll store topic votesPerVoter name pollID userID).1.2.sub := by
  refine ⟨rfl, rfl, rfl, rfl⟩

/-- Claim C10: `createPoll` returns the locally constructed initial poll
object, fully determined by the inputs and independent of any prior
store contents — no read-back from the store. -/
theorem createPoll_local_construction (store : Store) (d : CreatePollData) :
    (repoCreatePoll store d).1 =
      { id := d.pollID, topic := d.topic, votesPerVoter := d.votesPerVoter,
        participants := [], nominations := [], adminID := d.userID,
        hasStarted := false } := by
  rfl

/-- Claim C2: on a stored session, `removeParticipant` with
`hasStarted = true` performs no mutation and returns the distinguished
no-op result; with `hasStarted = false` it removes exactly the entry
keyed by the given participant identity (also when absent, without
error) and leaves every other participant entry and every other session
field unchanged. -/
theorem removeParticipant_noop_or_frame (store : Store) (pollID userID : String)
    (poll : Poll) (h : lookupKey store pollID = some poll) :
    (poll.hasStarted = true →
      serviceRemoveParticipant store pollID userID = .ok (none, store)) ∧
    (poll.hasStarted = false →
      ∃ poll',
        serviceRemoveParticipant store pollID userID =
          .ok (some poll', setEntry store pollID poll') ∧
        lookupKey poll'.participants userID = none ∧
        (∀ k, k ≠ userID →
          lookupKey poll'.participants k = lookupKey poll.participants k) ∧
        poll'.id = poll.id ∧ poll'.topic = poll.topic ∧
        poll'.votesPerVoter = poll.votesPerVoter ∧
        poll'.nominations = poll.nominations ∧
        poll'.adminID = poll.adminID ∧ poll'.hasStarted = poll.hasStarted) := by
  constructor
  · intro hs
    simp [serviceRemoveParticipant, repoGetPoll, h, hs]
  · intro hs
    refine ⟨{ poll with participants := delEntry poll.participants userID },
      ?_, ?_, ?_, rfl, rfl, rfl, rfl, rfl, rfl⟩
    · simp [serviceRemoveParticipant, repoGetPoll, h, hs, repoRemoveParticipant,
        lookupKey_setEntry_self]
    · exact lookupKey_delEntry_self poll.participants userID
    · intro k hk
      exact lookupKey_delEntry_ne poll.participants userID k hk

/-- Witness for C2: both branches at concrete inputs — removing "bob"
from the started demo poll is a no-op, removing "bob" from the open demo
poll removes exactly that entry. -/
theorem removeParticipant_noop_or_frame_witness :
    (lookupKey storeStartedDemo "p1" = some pollStartedDemo ∧
      serviceRemoveParticipant storeStartedDemo "p1" "bob" =
        .ok (none, storeStartedDemo)) ∧
    (lookupKey storeOpenDemo "p1" = some pollOpenDemo ∧
      ∃ poll',
        serviceRemoveParticipant storeOpenDemo "p1" "bob" =
          .ok (some poll', setEntry storeOpenDemo "p1" poll') ∧
        lookupKey poll'.participants "bob" = none ∧
        (∀ k, k ≠ "bob" →
          lookupKey poll'.participants k = lookupKey pollOpenDemo.participants k) ∧
        poll'.id = pollOpenDemo.id ∧ poll'.topic = pollOpenDemo.topic ∧
        poll'.votesPerVoter = pollOpenDemo.votesPerVoter ∧
        poll'.nominations = pollOpenDemo.nominations ∧
        poll'.adminID = pollOpenDemo.adminID ∧
        poll'.hasStarted = pollOpenDemo.hasStarted) := by
  constructor
  · exact ⟨by decide,
      (removeParticipant_noop_or_frame storeStartedDemo "p1" "bob" pollStartedDemo
        (by decide)).1 (by decide)⟩
  · exact ⟨by decide,
      (removeParticipant_noop_or_frame storeOpenDemo "p1" "bob" pollOpenDemo
        (by decide)).2 (by decide)⟩

/-- Claim C7: `rejoinSession` is an idempotent upsert keyed by the
participant identity — on a stored session whose participants object is
well formed (at most one entry per key), two consecutive rejoins with
the same identity yield a session holding exactly one entry for that
identity, bearing the display name of the latest call. -/
theorem rejoin_idempotent_upsert (store : Store) (pollID userID n₁ n₂ : String)
    (poll : Poll) (h : lookupKey store pollID = some poll)
    (hwf : countKey poll.participants userID ≤ 1) :
    ∃ poll₁ store₁ poll₂ store₂,
      serviceRejoinPoll store pollID userID n₁ = .ok (some poll₁, store₁) ∧
      serviceRejoinPoll store₁ pollID userID n₂ = .ok (some poll₂, store₂) ∧
      countKey poll₂.participants userID = 1 ∧
      lookupKey poll₂.participants userID = some n₂ := by
  refine ⟨{ poll with participants := setEntry poll.participants userID n₁ },
    setEntry store pollID { poll with participants := setEntry poll.participants userID n₁ },
    { poll with participants :=
        setEntry (setEntry poll.participants userID n₁) userID n₂ },
    setEntry (setEntry store pollID
        { poll with participants := setEntry poll.participants userID n₁ }) pollID
      { poll with participants :=
          setEntry (setEntry poll.participants userID n₁) userID n₂ },
    ?_, ?_, ?_, ?_⟩
  · simp [serviceRejoinPoll, repoAddParticipant, h, repoGetPoll, lookupKey_setEntry_self]
  · simp [serviceRejoinPoll, repoAddParticipant, repoGetPoll, lookupKey_setEntry_self]
  · simp only [countKey_setEntry]
    omega
  · exact lookupKey_setEntry_self _ userID n₂

/-- Witness for C7: "bob" rejoins the open demo poll twice, first as
"Bobby" then as "Rob"; exactly one entry for "bob" remains, named
"Rob". -/
theorem rejoin_idempotent_upsert_witness :
    (lookupKey storeOpenDemo "p1" = some pollOpenDemo ∧
      countKey pollOpenDemo.participants "bob" ≤ 1) ∧
    ∃ poll₁ store₁ poll₂ store₂,
      serviceRejoinPoll storeOpenDemo "p1" "bob" "Bobby" = .ok (some poll₁, store₁) ∧
      serviceRejoinPoll store₁ "p1" "bob" "Rob" = .ok (some poll₂, store₂) ∧
      countKey poll₂.participants "bob" = 1 ∧
      lookupKey poll₂.participants "bob" = some "Rob" :=
  ⟨⟨by decide, by decide⟩,
    rejoin_idempotent_upsert storeOpenDemo "p1" "bob" "Bobby" "Rob" pollOpenDemo
      (by decide) (by decide)⟩

/-- Claim C8: on a stored session, `addNomination` under a nomination
identity that is not yet a key of the nominations object, followed by
`removeNomination` with that identity, restores the nominations object
to exactly its prior state. -/
theorem nomination_roundtrip (store : Store) (pollID userID text nominationID : String)
    (poll : Poll) (h : lookupKey store pollID = some poll)
    (hfresh : lookupKey poll.nominations nominationID = none) :
    ∃ poll₁ store₁ poll₂ store₂,
      serviceAddNomination store pollID userID text nominationID =
        .ok (some poll₁, store₁) ∧
      serviceRemoveNomination store₁ pollID nominationID = (some poll₂, store₂) ∧
      poll₂.nominations = poll.nominations := by
  refine ⟨{ poll with nominations := setEntry poll.nominations nominationID ⟨userID, text⟩ },
    setEntry store pollID { poll with nominations := setEntry poll.nominations nominationID ⟨userID, text⟩ },
    { poll with nominations := delEntry (setEntry poll.nominations nominationID ⟨userID, text⟩) nominationID },
    setEntry (setEntry store pollID { poll with nominations := setEntry poll.nominations nominationID ⟨userID, text⟩ }) pollID { poll with nominations := delEntry (setEntry poll.nominations nominationID ⟨userID, text⟩) nominationID },
    ?_, ?_, ?_⟩
  · simp [serviceAddNomination, repoAddNomination, h, repoGetPoll, lookupKey_setEntry_self]
  · simp [serviceRemoveNomination, repoRemoveNomination, repoGetPoll, lookupKey_setEntry_self]
  · exact delEntry_setEntry_of_absent poll.nominations nominationID _ hfresh

/-- Witness for C8: adding nomination "n9" ("Sushi" by "bob") to the
open demo poll and removing it again leaves the original single-entry
nominations object. -/
theorem nomination_roundtrip_witness :
    (lookupKey storeOpenDemo "p1" = some pollOpenDemo ∧
      lookupKey pollOpenDemo.nominations "n9" = none) ∧
    ∃ poll₁ store₁ poll₂ store₂,
      serviceAddNomination storeOpenDemo "p1" "bob" "Sushi" "n9" =
        .ok (some poll₁, store₁) ∧
      serviceRemoveNomination store₁ "p1" "n9" = (some poll₂, store₂) ∧
      poll₂.nominations = pollOpenDemo.nominations :=
  ⟨⟨by decide, by decide⟩,
    nomination_roundtrip storeOpenDemo "p1" "bob" "Sushi" "n9" pollOpenDemo
      (by decide) (by decide)⟩

/-- Counterexample for C4: on the empty store (session ID "p1" absent),
`getSession` returns a null value instead of failing, `joinSession`
fails with a null-dereference error and `rejoinSession` with the generic
internal store error — neither is the distinguished `sessionNotFound`
error, which the embedded code never produces. -/
theorem absent_session_counterexample :
    serviceGetPoll ([] : Store) "p1" = none ∧
    serviceJoinPoll ([] : Store) "p1" "Dave" "u1" = .error .nullDeref ∧
    serviceRejoinPoll ([] : Store) "p1" "u1" "Dave" = .error .internalError ∧
    SvcError.nullDeref ≠ SvcError.sessionNotFound ∧
    SvcError.internalError ≠ SvcError.sessionNotFound :=
  ⟨rfl, rfl, rfl, by decide, by decide⟩

/-- Claim C4 amended: for a session ID absent from the store (or
expired, which Redis reports identically), `getSession` returns a null
session value without failing; `joinSession` and `removeParticipant`
fail with a null-dereference error from reading a field of the null
poll; `rejoinSession` and `addNomination` fail with the generic internal
store error from the failed member-path write; `removeNomination`
succeeds, returning a null snapshot; no operation fails with a
distinguished `SessionNotFound` error. -/
theorem absent_session_behavior (store : Store)
    (pollID userID name text nominationID : String)
    (h : lookupKey store pollID = none) :
    serviceGetPoll store pollID = none ∧
    serviceJoinPoll store pollID name userID = .error .nullDeref ∧
    serviceRejoinPoll store pollID userID name = .error .internalError ∧
    serviceRemoveParticipant store pollID userID = .error .nullDeref ∧
    serviceAddNomination store pollID userID text nominationID = .error .internalError ∧
    serviceRemoveNomination store pollID nominationID = (none, store) := by
  refine ⟨?_, ?_, ?_, ?_, ?_, ?_⟩
  · simp [serviceGetPoll, repoGetPoll, h]
  · simp [serviceJoinPoll, repoGetPoll, h]
  · simp [serviceRejoinPoll, repoAddParticipant, h]
  · simp [serviceRemoveParticipant, repoGetPoll, h]
  · simp [serviceAddNomination, repoAddNomination, h]
  · simp [serviceRemoveNomination, repoRemoveNomination, h]

/-- Witness for C4 amended: the behaviors above at the concrete absent
session ID "p9" in the open demo store. -/
theorem absent_session_behavior_witness :
    lookupKey storeOpenDemo "p9" = none ∧
    (serviceGetPoll storeOpenDemo "p9" = none ∧
      serviceJoinPoll storeOpenDemo "p9" "Dave" "u1" = .error .nullDeref ∧
      serviceRejoinPoll storeOpenDemo "p9" "u1" "Dave" = .error .internalError ∧
      serviceRemoveParticipant storeOpenDemo "p9" "u1" = .error .nullDeref ∧
      serviceAddNomination storeOpenDemo "p9" "u1" "Tacos" "n1" = .error .internalError ∧
      serviceRemoveNomination storeOpenDemo "p9" "n1" = (none, storeOpenDemo)) :=
  ⟨by decide, absent_session_behavior storeOpenDemo "p9" "u1" "Dave" "Tacos" "n1" (by decide)⟩

/-- Counterexample for C9: the claim that every nomination's owner was a
participant at creation time fails — from the reachable store holding
only a freshly created poll (whose participants object is empty, the
creator included), `addNomination` succeeds for the identity "ghost",
which is not a key of the participants map. -/
theorem nomination_owner_counterexample : ¬ nominationOwnersWereParticipants := by
  intro hclaim
  have hreach : ReachableStore storeFreshDemo :=
    ReachableStore.create [] "lunch" 2 "Alice" "p1" "alice" ReachableStore.empty
  obtain ⟨poll, hpoll, hmem⟩ :=
    hclaim storeFreshDemo hreach "p1" "ghost" "pizza" "n1"
      (some { pollFreshDemo with nominations := [("n1", ⟨"ghost", "pizza"⟩)] },
        [("p1", { pollFreshDemo with nominations := [("n1", ⟨"ghost", "pizza"⟩)] })])
      rfl
  have hp : poll = pollFreshDemo := by
    have : lookupKey storeFreshDemo "p1" = some pollFreshDemo := by decide
    rw [this] at hpoll
    exact (Option.some.injEq _ _ ▸ hpoll).symm
  subst hp
  exact hmem (by decide)

/-- Claim C9 amended: each nomination added through the Service records
as its owner (field `userID`) exactly the participant identity passed to
`addNomination`; the Service performs no membership check, so that
identity need not be a key of the participants map. -/
theorem addNomination_records_caller (store : Store)
    (pollID userID text nominationID : String) (poll : Poll)
    (h : lookupKey store pollID = some poll) :
    ∃ poll' store',
      serviceAddNomination store pollID userID text nominationID =
        .ok (some poll', store') ∧
      lookupKey poll'.nominations nominationID = some { userID := userID, text := text } := by
  refine ⟨{ poll with nominations := setEntry poll.nominations nominationID ⟨userID, text⟩ },
    setEntry store pollID { poll with nominations := setEntry poll.nominations nominationID ⟨userID, text⟩ },
    ?_, ?_⟩
  · simp [serviceAddNomination, repoAddNomination, h, repoGetPoll, lookupKey_setEntry_self]
  · exact lookupKey_setEntry_self _ nominationID _

/-- Witness for C9 amended: "ghost" nominates "pizza" on the fresh demo
poll; the stored nomination records owner "ghost". -/
theorem addNomination_records_caller_witness :
    lookupKey storeFreshDemo "p1" = some pollFreshDemo ∧
    ∃ poll' store',
      serviceAddNomination storeFreshDemo "p1" "ghost" "pizza" "n1" =
        .ok (some poll', store') ∧
      lookupKey poll'.nominations "n1" = some { userID := "ghost", text := "pizza" } :=
  ⟨by decide, addNomination_records_caller storeFreshDemo "p1" "ghost" "pizza" "n1"
    pollFreshDemo (by decide)⟩

/-- Counterexample for C3: on the started demo poll, the admin-invoked
`remove_participant` handler broadcasts a `poll_updated` message even
though the Service operation returns the no-op result — the handler,
unlike `handleDisconnect`, has no truthiness check before emitting. -/
theorem noop_broadcast_counterexample :
    serviceRemoveParticipant storeStartedDemo "p1" "bob" = .ok (none, storeStartedDemo) ∧
    (gatewayRemoveParticipant storeStartedDemo ⟨"alice", "p1", "Alice"⟩ "bob").1 =
      [.broadcast "p1" "poll_updated" none] ∧
    [OutMsg.broadcast "p1" "poll_updated" (none : Option Poll)] ≠ [] :=
  ⟨rfl, rfl, by decide⟩

/-- Claim C3 amended: when `removeParticipant` signals no-op (session
started), the disconnect handler suppresses its `poll_updated`
broadcast, but the admin-initiated `remove_participant` handler does
not: it broadcasts a `poll_updated` message unconditionally, with an
undefined (empty) payload in the no-op case. -/
theorem noop_broadcast_behavior (store : Store) (client : AuthPayload)
    (targetUserID : String) (poll : Poll)
    (h : lookupKey store client.pollID = some poll)
    (hs : poll.hasStarted = true) :
    gatewayHandleDisconnect store client = ([], store) ∧
    (client.userID = poll.adminID →
      gatewayRemoveParticipant store client targetUserID =
        ([.broadcast client.pollID "poll_updated" none], store)) := by
  constructor
  · simp [gatewayHandleDisconnect, serviceRemoveParticipant, repoGetPoll, h, hs]
  · intro hadmin
    simp [gatewayRemoveParticipant, gatewayAdminGuard, h, hadmin,
      serviceRemoveParticipant, repoGetPoll, hs]

/-- Witness for C3 amended: on the started demo poll, the disconnecting
participant "bob" triggers no broadcast, while the admin removing "bob"
triggers an unconditional `poll_updated` broadcast with empty payload. -/
theorem noop_broadcast_behavior_witness :
    (lookupKey storeStartedDemo "p1" = some pollStartedDemo ∧
      pollStartedDemo.hasStarted = true) ∧
    gatewayHandleDisconnect storeStartedDemo ⟨"bob", "p1", "Bob"⟩ =
      ([], storeStartedDemo) ∧
    (AuthPayload.userID ⟨"alice", "p1", "Alice"⟩ = pollStartedDemo.adminID →
      gatewayRemoveParticipant storeStartedDemo ⟨"alice", "p1", "Alice"⟩ "bob" =
        ([.broadcast "p1" "poll_updated" none], storeStartedDemo)) :=
  ⟨⟨by decide, by decide⟩,
    noop_broadcast_behavior storeStartedDemo ⟨"bob", "p1", "Bob"⟩ "bob"
      pollStartedDemo (by decide) (by decide) |>.1,
    noop_broadcast_behavior storeStartedDemo ⟨"alice", "p1", "Alice"⟩ "bob"
      pollStartedDemo (by decide) (by decide) |>.2⟩

/-- Claim C5: when the admin guard denies an admin-only action
(`remove_participant` or `remove_nomination` from a non-admin identity),
the store is left exactly as it was and the only emission is the unicast
`exception` to the acting connection — no group broadcast.  The guard is
modelled from the spec (section 4.4), its source file being absent from
the tree. -/
theorem denied_action_no_mutation (store : Store) (client : AuthPayload)
    (nominationID targetUserID : String) (poll : Poll)
    (h : lookupKey store client.pollID = some poll)
    (hden : client.userID ≠ poll.adminID) :
    gatewayRemoveNomination store client nominationID =
      ([.unicast "exception"], store) ∧
    gatewayRemoveParticipant store client targetUserID =
      ([.unicast "exception"], store) := by
  have hguard : gatewayAdminGuard store client = false := by
    simp [gatewayAdminGuard, h, hden]
  constructor
  · simp [gatewayRemoveNomination, hguard]
  · simp [gatewayRemoveParticipant, hguard]

/-- Witness for C5: non-admin "bob" attempting `remove_nomination` and
`remove_participant` on the open demo poll gets a unicast rejection and
the store is unchanged. -/
theorem denied_action_no_mutation_witness :
    (lookupKey storeOpenDemo "p1" = some pollOpenDemo ∧
      AuthPayload.userID ⟨"bob", "p1", "Bob"⟩ ≠ pollOpenDemo.adminID) ∧
    gatewayRemoveNomination storeOpenDemo ⟨"bob", "p1", "Bob"⟩ "n1" =
      ([.unicast "exception"], storeOpenDemo) ∧
    gatewayRemoveParticipant storeOpenDemo ⟨"bob", "p1", "Bob"⟩ "carol" =
      ([.unicast "exception"], storeOpenDemo) :=
  ⟨⟨by decide, by decide⟩,
    denied_action_no_mutation storeOpenDemo ⟨"bob", "p1", "Bob"⟩ "n1" "carol"
      pollOpenDemo (by decide) (by decide)⟩

/-- Claim C6, evaluated at the failing input: the admin removing
nomination "n1" from the open demo poll succeeds, but the room broadcast
carries the event name `pol_updated` (the literal at
`polls.repository.ts` line 565), not the `poll_updated` kind used by
every other successful-mutation broadcast, as the `nominate` handler
shows on the same poll. -/
theorem removeNomination_event_kind_bug :
    (gatewayRemoveNomination storeOpenDemo ⟨"alice", "p1", "Alice"⟩ "n1").1 =
      [.broadcast "p1" "pol_updated" (some { pollOpenDemo with nominations := [] })] ∧
    (gatewayNominate storeOpenDemo ⟨"alice", "p1", "Alice"⟩ "Tacos" "n2").1 =
      [.broadcast "p1" "poll_updated"
        (some { pollOpenDemo with nominations :=
          [("n1", ⟨"alice", "Pizza"⟩), ("n2", ⟨"alice", "Tacos"⟩)] })] ∧
    "pol_updated" ≠ "poll_updated" :=
  ⟨rfl, rfl, by decide⟩

end PollRanking
